import Mathlib

/-!
Shallow embedding of the Umbra WebGL2 wrapper library.

The wrapper classes pair a handle to a native resource with cached copies of
queryable state.  We model the native driver as explicit state plus a trace of
native calls (`GLCall`), and each wrapper getter/setter/constructor as a pure
function returning the new wrapper state, the new native state where relevant,
and the list of native calls it issued, in order.  JavaScript numbers appearing
in the modelled code are only compared for equality or offset by the constant
`TEXTURE0`, so they are embedded as `Int`.
-/

namespace Umbra

/-- The `PredefinedColorSpace` string enumeration (`"srgb" | "display-p3"`). -/
inductive ColorSpace where
  | srgb
  | displayP3
deriving DecidableEq, Repr

/-- A `Color`: four numeric components, as indexed `[0]`–`[3]` by
`Context.blendColor`. -/
structure Color where
  r : Int
  g : Int
  b : Int
  a : Int
deriving DecidableEq, Repr

/-- A value passed to an attribute: an object carrying a buffer handle and
optional layout fields (`AttributeValue`). -/
structure AttributeValue where
  buffer : Int
  size : Option Int := none
  normalized : Option Bool := none
  stride : Option Int := none
  offset : Option Int := none
deriving DecidableEq, Repr

/-- A native call (or, for `bufferBind` and `attributeSetterInternal`, an
invocation of a wrapper method whose body delegates to the native call)
recorded in the trace. -/
inductive GLCall where
  | setNativeDrawingBufferColorSpace (v : ColorSpace)
  | getNativeDrawingBufferColorSpace
  | setNativeUnpackColorSpace (v : ColorSpace)
  | getNativeUnpackColorSpace
  | nativeActiveTexture (v : Int)
  | getParameterActiveTexture
  | nativeBlendColor (r g b a : Int)
  | getParameterBlendColor
  | getContextWebgl2
  | createProgram
  | attachShader (shader : Int)
  | bindAttribLocation (location : Int) (nm : String)
  | linkProgram
  | getProgramParameterLinkStatus
  | getProgramInfoLog
  | deleteProgram (handle : Int)
  | createShader
  | shaderSourceCall
  | compileShader
  | getShaderParameterCompileStatus
  | getShaderInfoLog
  | enableVertexAttribArray (location : Int)
  | disableVertexAttribArray (location : Int)
  | bufferBind (buffer : Int)
  | attributeSetterInternal (v : AttributeValue)
deriving DecidableEq, Repr

/-- The typed errors surfaced by the wrapper.  `ProgramLinkError` and
`ShaderCompileError` carry the driver-provided info log (`none` models the
JavaScript `undefined` produced by `infoLog ?? void 0`). -/
inductive UmbraError where
  | unsupportedOperation (msg : Option String)
  | programLink (log : Option String)
  | shaderCompile (log : Option String)
deriving DecidableEq, Repr

/-- The native WebGL2 state relevant to the cached `Context` properties. -/
structure GLState where
  drawingBufferColorSpace : ColorSpace
  unpackColorSpace : ColorSpace
  /-- The raw enum returned by `getParameter(ACTIVE_TEXTURE)`. -/
  activeTextureEnum : Int
  blendColor : Color
deriving DecidableEq, Repr

/-- The cache fields of the `Context` wrapper; `none` models an `undefined`
(not yet populated) cache. -/
structure ContextState where
  drawingBufferColorSpaceCache : Option ColorSpace := none
  unpackColorSpaceCache : Option ColorSpace := none
  activeTextureCache : Option Int := none
  blendColorCache : Option Color := none
deriving DecidableEq, Repr

/-- The constant `TEXTURE0` (`0x84c0`). -/
def TEXTURE0 : Int := 33984

namespace Context

/-- The `drawingBufferColorSpace` getter: populate the cache from the native
property on first read, then return the cache. -/
def getDrawingBufferColorSpace (c : ContextState) (g : GLState) :
    ColorSpace × ContextState × List GLCall :=
  match c.drawingBufferColorSpaceCache with
  | some v => (v, c, [])
  | none =>
      (g.drawingBufferColorSpace,
       { c with drawingBufferColorSpaceCache := some g.drawingBufferColorSpace },
       [GLCall.getNativeDrawingBufferColorSpace])

/-- The `drawingBufferColorSpace` setter: return early when the cache equals
the requested value, otherwise assign the native property and the cache. -/
def setDrawingBufferColorSpace (c : ContextState) (g : GLState)
    (value : ColorSpace) : ContextState × GLState × List GLCall :=
  if c.drawingBufferColorSpaceCache = some value then
    (c, g, [])
  else
    ({ c with drawingBufferColorSpaceCache := some value },
     { g with drawingBufferColorSpace := value },
     [GLCall.setNativeDrawingBufferColorSpace value])

/-- The `unpackColorSpace` getter. -/
def getUnpackColorSpace (c : ContextState) (g : GLState) :
    ColorSpace × ContextState × List GLCall :=
  match c.unpackColorSpaceCache with
  | some v => (v, c, [])
  | none =>
      (g.unpackColorSpace,
       { c with unpackColorSpaceCache := some g.unpackColorSpace },
       [GLCall.getNativeUnpackColorSpace])

/-- The `unpackColorSpace` setter. -/
def setUnpackColorSpace (c : ContextState) (g : GLState)
    (value : ColorSpace) : ContextState × GLState × List GLCall :=
  if c.unpackColorSpaceCache = some value then
    (c, g, [])
  else
    ({ c with unpackColorSpaceCache := some value },
     { g with unpackColorSpace := value },
     [GLCall.setNativeUnpackColorSpace value])

/-- The `activeTexture` getter: on a cold cache, query
`getParameter(ACTIVE_TEXTURE)` and subtract `TEXTURE0`. -/
def getActiveTexture (c : ContextState) (g : GLState) :
    Int × ContextState × List GLCall :=
  match c.activeTextureCache with
  | some v => (v, c, [])
  | none =>
      (g.activeTextureEnum - TEXTURE0,
       { c with activeTextureCache := some (g.activeTextureEnum - TEXTURE0) },
       [GLCall.getParameterActiveTexture])

/-- The `activeTexture` setter: skip when cached, otherwise call the native
`activeTexture(value + TEXTURE0)` and cache `value`. -/
def setActiveTexture (c : ContextState) (g : GLState) (value : Int) :
    ContextState × GLState × List GLCall :=
  if c.activeTextureCache = some value then
    (c, g, [])
  else
    ({ c with activeTextureCache := some value },
     { g with activeTextureEnum := value + TEXTURE0 },
     [GLCall.nativeActiveTexture (value + TEXTURE0)])

/-- The `blendColor` getter: on a cold cache, query
`getParameter(BLEND_COLOR)`. -/
def getBlendColor (c : ContextState) (g : GLState) :
    Color × ContextState × List GLCall :=
  match c.blendColorCache with
  | some v => (v, c, [])
  | none =>
      (g.blendColor,
       { c with blendColorCache := some g.blendColor },
       [GLCall.getParameterBlendColor])

/-- The `blendColor` setter: skip when the cache is populated and all four
components equal the requested components, otherwise call the native
`blendColor` and cache the value. -/
def setBlendColor (c : ContextState) (g : GLState) (value : Color) :
    ContextState × GLState × List GLCall :=
  match c.blendColorCache with
  | some bc =>
      if bc.r = value.r ∧ bc.g = value.g ∧ bc.b = value.b ∧ bc.a = value.a then
        (c, g, [])
      else
        ({ c with blendColorCache := some value },
         { g with blendColor := value },
         [GLCall.nativeBlendColor value.r value.g value.b value.a])
  | none =>
      ({ c with blendColorCache := some value },
       { g with blendColor := value },
       [GLCall.nativeBlendColor value.r value.g value.b value.a])

/-- The `Context` constructor taking a canvas: the result of
`canvas.getContext("webgl2", options)` is passed in (`none` models `null`);
a `null` context raises `UnsupportedOperationError`, otherwise the returned
context is wrapped. -/
def fromCanvas (getContextResult : Option Int) :
    Except UmbraError Int × List GLCall :=
  match getContextResult with
  | none =>
      (Except.error
        (UmbraError.unsupportedOperation
          (some "The environment does not support WebGL2.")),
       [GLCall.getContextWebgl2])
  | some gl => (Except.ok gl, [GLCall.getContextWebgl2])

end Context

/-- The driver-side outcomes observed while constructing a `Program`:
the result of `createProgram` (`none` models `null`), the link status that
`getProgramParameter(LINK_STATUS)` reports after `linkProgram`, and the
string returned by `getProgramInfoLog` (`none` models `null`). -/
structure ProgramGL where
  createProgramResult : Option Int
  linkStatusAfterLink : Bool
  programInfoLog : Option String
deriving DecidableEq, Repr

/-- The fields a successfully constructed `Program` wrapper holds:
the native program handle and the two attached shaders. -/
structure ProgramState where
  internal : Int
  vertexShader : Int
  fragmentShader : Int
deriving DecidableEq, Repr

namespace Program

/-- The `Program` constructor: `createProgram` (throwing
`UnsupportedOperationError` on `null`), `attachShader` for both shaders,
`bindAttribLocation` for each requested attribute location, one
`linkProgram`, then the `linkStatus` query; a `false` status throws
`ProgramLinkError` carrying the `infoLog` (with `null` coerced to
`undefined` by `?? void 0`). -/
def construct (glo : ProgramGL) (vertexShader fragmentShader : Int)
    (attributeLocations : Option (List (String × Int))) :
    Except UmbraError ProgramState × List GLCall :=
  match glo.createProgramResult with
  | none =>
      (Except.error (UmbraError.unsupportedOperation none),
       [GLCall.createProgram])
  | some program =>
      let bindCalls : List GLCall :=
        match attributeLocations with
        | none => []
        | some locs => locs.map fun p => GLCall.bindAttribLocation p.2 p.1
      let leadCalls : List GLCall :=
        [GLCall.createProgram, GLCall.attachShader vertexShader,
         GLCall.attachShader fragmentShader] ++ bindCalls ++
        [GLCall.linkProgram, GLCall.getProgramParameterLinkStatus]
      if glo.linkStatusAfterLink then
        (Except.ok
          { internal := program, vertexShader := vertexShader,
            fragmentShader := fragmentShader },
         leadCalls)
      else
        (Except.error (UmbraError.programLink glo.programInfoLog),
         leadCalls ++ [GLCall.getProgramInfoLog])

/-- The operations available on a constructed `Program` wrapper. -/
inductive Op where
  | getLinkStatus
  | getInfoLog
  | deleteOp
deriving DecidableEq, Repr

/-- Run one wrapper operation on a `Program`: the `linkStatus` and `infoLog`
getters query the driver, and `delete` forwards to `deleteProgram`; none of
them changes the wrapper's fields. -/
def runOp (p : ProgramState) (op : Op) : ProgramState × List GLCall :=
  match op with
  | Op.getLinkStatus => (p, [GLCall.getProgramParameterLinkStatus])
  | Op.getInfoLog => (p, [GLCall.getProgramInfoLog])
  | Op.deleteOp => (p, [GLCall.deleteProgram p.internal])

end Program

/-- The driver-side outcomes observed while constructing a `Shader`. -/
structure ShaderGL where
  createShaderResult : Option Int
  compileStatusAfterCompile : Bool
  shaderInfoLog : Option String
deriving DecidableEq, Repr

namespace Shader

/-- Modelled from the spec: the `Shader` class itself is not under `src/`
(only `Program` refers to it).  Per the spec, its constructor acquires a
native handle and fails with a typed error if acquisition fails, and
compile-failure means "shader compilation failed, with driver-provided
diagnostic text attached", detected synchronously at the point of the
underlying native call: `createShader`, `shaderSource`, one
`compileShader`, then the compile-status query; a `false` status throws
`ShaderCompileError` carrying the shader info log. -/
def construct (glo : ShaderGL) : Except UmbraError Int × List GLCall :=
  match glo.createShaderResult with
  | none =>
      (Except.error (UmbraError.unsupportedOperation none),
       [GLCall.createShader])
  | some shader =>
      let leadCalls : List GLCall :=
        [GLCall.createShader, GLCall.shaderSourceCall, GLCall.compileShader,
         GLCall.getShaderParameterCompileStatus]
      if glo.compileStatusAfterCompile then
        (Except.ok shader, leadCalls)
      else
        (Except.error (UmbraError.shaderCompile glo.shaderInfoLog),
         leadCalls ++ [GLCall.getShaderInfoLog])

end Shader

/-- The mutable state of an `Attribute` wrapper: its location, the per-VAO
enabled cache (`enabledVaosCache`, a list of VAO handles), and the value
cache. -/
structure Attribute where
  location : Int
  enabledVaosCache : List Int
  valueCache : Option AttributeValue := none
deriving DecidableEq, Repr

/-- The argument of `Attribute.setValue`: either an `AttributeValue` object
(which has a `buffer` field) or a bare `Buffer`. -/
inductive SetValueArg where
  | val (v : AttributeValue)
  | buf (b : Int)
deriving DecidableEq, Repr

namespace Attribute

/-- The `enabled` getter: `false` when `Vao.getBound` returns `null`
(`boundVao = none`), otherwise whether the bound VAO is in
`enabledVaosCache`. -/
def getEnabled (a : Attribute) (boundVao : Option Int) : Bool :=
  match boundVao with
  | none => false
  | some vao => a.enabledVaosCache.contains vao

/-- The `enabled` setter: return early when the getter already reports the
requested value; otherwise issue `enableVertexAttribArray` or
`disableVertexAttribArray` and update `enabledVaosCache` for the bound VAO
(when one is bound). -/
def setEnabled (a : Attribute) (boundVao : Option Int) (value : Bool) :
    Attribute × List GLCall :=
  if a.getEnabled boundVao = value then
    (a, [])
  else if value then
    match boundVao with
    | some vao =>
        if a.enabledVaosCache.contains vao then
          (a, [GLCall.enableVertexAttribArray a.location])
        else
          ({ a with enabledVaosCache := a.enabledVaosCache ++ [vao] },
           [GLCall.enableVertexAttribArray a.location])
    | none => (a, [GLCall.enableVertexAttribArray a.location])
  else
    match boundVao with
    | some vao =>
        if a.enabledVaosCache.contains vao then
          ({ a with enabledVaosCache := a.enabledVaosCache.erase vao },
           [GLCall.disableVertexAttribArray a.location])
        else
          (a, [GLCall.disableVertexAttribArray a.location])
    | none => (a, [GLCall.disableVertexAttribArray a.location])

/-- `Attribute.setValue`: set `enabled` to `true`, normalise the argument to
an `AttributeValue`, bind its buffer to `ARRAY_BUFFER`, invoke the abstract
`setterInternal` (whose overrides issue the native attribute-pointer call),
and cache the value — even if the cached value is the same as the given
value, since the data in the buffer could have updated. -/
def setValue (a : Attribute) (boundVao : Option Int) (value : SetValueArg) :
    Attribute × List GLCall :=
  let enabledStep := a.setEnabled boundVao true
  let realValue : AttributeValue :=
    match value with
    | SetValueArg.val v => v
    | SetValueArg.buf b => { buffer := b }
  ({ enabledStep.1 with valueCache := some realValue },
   enabledStep.2 ++
     [GLCall.bufferBind realValue.buffer,
      GLCall.attributeSetterInternal realValue])

end Attribute

/-- The fields of an `AttributeState` (the older codebase's buffer-access
descriptor): name, buffer, components per vertex, normalisation flag,
stride, and offset. -/
structure AttributeStateRec where
  name : String
  buffer : Int
  size : Int := 3
  normalized : Bool := false
  stride : Int := 0
  offset : Int := 0
deriving DecidableEq, Repr

/-- An attribute of the older codebase's `Program`, as seen by
`AttributeState.use`: an object with an assignable `value` property. -/
structure OldAttribute where
  value : Option AttributeStateRec := none
deriving DecidableEq, Repr

namespace AttributeState

/-- Look up a key in `program.attributes` (`Map.get`, `undefined` when
absent). -/
def mapGet (attrs : List (String × OldAttribute)) (key : String) :
    Option OldAttribute :=
  match attrs with
  | [] => none
  | (k, v) :: rest => if k = key then some v else mapGet rest key

/-- Assign the `value` property of the map entry at the given key. -/
def mapSetValue (attrs : List (String × OldAttribute)) (key : String)
    (st : AttributeStateRec) : List (String × OldAttribute) :=
  match attrs with
  | [] => []
  | (k, v) :: rest =>
      if k = key then (k, { v with value := some st }) :: rest
      else (k, v) :: mapSetValue rest key st

/-- `AttributeState.use(program)`: look the state's name up in
`program.attributes`; throw `Error("Attribute not found.")` when the lookup
yields `undefined`, otherwise assign this state as the found attribute's
`value`. -/
def use (st : AttributeStateRec) (attrs : List (String × OldAttribute)) :
    Except String (List (String × OldAttribute)) :=
  match mapGet attrs st.name with
  | none => Except.error "Attribute not found."
  | some _ => Except.ok (mapSetValue attrs st.name st)

end AttributeState

/-- A sample native state used by concrete witnesses. -/
def g0 : GLState :=
  { drawingBufferColorSpace := ColorSpace.srgb,
    unpackColorSpace := ColorSpace.srgb,
    activeTextureEnum := 33984,
    blendColor := ⟨0, 0, 0, 0⟩ }

/-- A sample native state whose driver reports raw active-texture enum
`33985`, used by concrete witnesses. -/
def g1 : GLState :=
  { drawingBufferColorSpace := ColorSpace.srgb,
    unpackColorSpace := ColorSpace.srgb,
    activeTextureEnum := 33985,
    blendColor := ⟨0, 0, 0, 0⟩ }

/-- Iterate a cached read `n` times, threading the wrapper state and
concatenating the issued native calls. -/
def readN {α : Type} (read : ContextState → α × ContextState × List GLCall) :
    ContextState → Nat → ContextState × List GLCall
  | c, 0 => (c, [])
  | c, n + 1 =>
      let s := read c
      let r := readN read s.2.1 n
      (r.1, s.2.2 ++ r.2)

theorem readN_of_warm {α : Type}
    (read : ContextState → α × ContextState × List GLCall)
    (W : ContextState → Prop)
    (hwarm : ∀ c, W c → (read c).2.1 = c ∧ (read c).2.2 = []) :
    ∀ n c, W c → readN read c n = (c, []) := by
  intro n
  induction n with
  | zero => intro c _; rfl
  | succ n ih =>
      intro c hc
      have h := hwarm c hc
      simp only [readN, h.1, h.2, ih c hc, List.nil_append]

theorem readN_calls_le_one {α : Type}
    (read : ContextState → α × ContextState × List GLCall)
    (W : ContextState → Prop)
    (hwarm : ∀ c, W c → (read c).2.1 = c ∧ (read c).2.2 = [])
    (hcold : ∀ c, ¬ W c → (read c).2.2.length = 1 ∧ W (read c).2.1) :
    ∀ c n, (readN read c n).2.length ≤ 1 := by
  intro c n
  by_cases hc : W c
  · rw [readN_of_warm read W hwarm n c hc]
    simp
  · cases n with
    | zero => simp [readN]
    | succ n =>
        have h := hcold c hc
        simp only [readN]
        rw [readN_of_warm read W hwarm n _ h.2]
        simp [h.1]

theorem bindCalls_no_linkProgram (l : List (String × Int)) :
    GLCall.linkProgram ∉ l.map fun p => GLCall.bindAttribLocation p.2 p.1 := by
  intro hmem
  simp [List.mem_map] at hmem

theorem bindCalls_no_deleteProgram (l : List (String × Int)) (h : Int) :
    GLCall.deleteProgram h ∉ l.map fun p => GLCall.bindAttribLocation p.2 p.1 := by
  intro hmem
  simp [List.mem_map] at hmem

theorem mapGet_mapSetValue (attrs : List (String × OldAttribute)) (key : String)
    (st : AttributeStateRec) (attr : OldAttribute)
    (h : AttributeState.mapGet attrs key = some attr) :
    AttributeState.mapGet (AttributeState.mapSetValue attrs key st) key =
      some { attr with value := some st } := by
  induction attrs with
  | nil => simp [AttributeState.mapGet] at h
  | cons hd tl ih =>
      by_cases hk : hd.1 = key
      · simp [AttributeState.mapGet, AttributeState.mapSetValue, hk] at h ⊢
      · simp [AttributeState.mapGet, AttributeState.mapSetValue, hk] at h ⊢
        exact ih h

/-- C4: constructing a `Context` from a canvas throws
`UnsupportedOperationError` if and only if `getContext("webgl2", options)`
returned `null`; otherwise the returned context is wrapped and the
constructor returns normally. -/
theorem C4_context_from_canvas (r : Option Int) :
    ((Context.fromCanvas r).1 =
        Except.error (UmbraError.unsupportedOperation
          (some "The environment does not support WebGL2.")) ↔ r = none) ∧
    (∀ gl : Int, r = some gl →
      Context.fromCanvas r = (Except.ok gl, [GLCall.getContextWebgl2])) := by
  cases r <;> simp [Context.fromCanvas]

/-- C4 witness: evaluating the constructor at `none` and at a concrete
context handle. -/
theorem C4_context_from_canvas_witness :
    (Context.fromCanvas none).1 =
        Except.error (UmbraError.unsupportedOperation
          (some "The environment does not support WebGL2.")) ∧
    Context.fromCanvas (some 7) = (Except.ok 7, [GLCall.getContextWebgl2]) :=
  ⟨(C4_context_from_canvas none).1.mpr rfl,
   (C4_context_from_canvas (some 7)).2 7 rfl⟩

/-- C3: when `createProgram` succeeds, the `Program` constructor throws
`ProgramLinkError` carrying the driver info log if and only if the link
status after the single `linkProgram` call is `false`; when the status is
`true` it returns the constructed wrapper normally.  The trace contains
exactly one `linkProgram` call either way. -/
theorem C3_program_link_error (glo : ProgramGL) (vs fs : Int)
    (locs : Option (List (String × Int))) (p : Int)
    (hp : glo.createProgramResult = some p) :
    ((Program.construct glo vs fs locs).1 =
        Except.error (UmbraError.programLink glo.programInfoLog) ↔
      glo.linkStatusAfterLink = false) ∧
    (glo.linkStatusAfterLink = true →
      (Program.construct glo vs fs locs).1 =
        Except.ok { internal := p, vertexShader := vs, fragmentShader := fs }) ∧
    (Program.construct glo vs fs locs).2.count GLCall.linkProgram = 1 := by
  have hbind : ∀ l : List (String × Int),
      (l.map fun q => GLCall.bindAttribLocation q.2 q.1).count
        GLCall.linkProgram = 0 := by
    intro l
    exact List.count_eq_zero.mpr (bindCalls_no_linkProgram l)
  unfold Program.construct
  rw [hp]
  cases locs with
  | none => cases h : glo.linkStatusAfterLink <;> simp [List.count_append, List.count_cons]
  | some l =>
      cases h : glo.linkStatusAfterLink <;>
        simp [List.count_append, List.count_cons, hbind l]

/-- C3 witness: a failing link at a concrete oracle throws
`ProgramLinkError` with the log, and a succeeding link returns the
wrapper. -/
theorem C3_program_link_error_witness :
    (Program.construct ⟨some 4, false, some "bad"⟩ 1 2 none).1 =
        Except.error (UmbraError.programLink (some "bad")) ∧
    (Program.construct ⟨some 4, true, none⟩ 1 2 none).1 =
        Except.ok { internal := 4, vertexShader := 1, fragmentShader := 2 } :=
  ⟨(C3_program_link_error ⟨some 4, false, some "bad"⟩ 1 2 none 4 rfl).1.mpr rfl,
   (C3_program_link_error ⟨some 4, true, none⟩ 1 2 none 4 rfl).2.1 rfl⟩

/-- C6: `Program.delete` forwards exactly one `deleteProgram` call on the
wrapped handle and changes no wrapper field; no other wrapper operation,
nor the constructor, ever issues `deleteProgram`. -/
theorem C6_delete_only_on_delete (p : ProgramState) :
    Program.runOp p Program.Op.deleteOp =
      (p, [GLCall.deleteProgram p.internal]) ∧
    (∀ op : Program.Op, op ≠ Program.Op.deleteOp →
      ∀ h : Int, GLCall.deleteProgram h ∉ (Program.runOp p op).2) ∧
    (∀ (glo : ProgramGL) (vs fs : Int)
       (locs : Option (List (String × Int))) (h : Int),
      GLCall.deleteProgram h ∉ (Program.construct glo vs fs locs).2) := by
  refine ⟨rfl, ?_, ?_⟩
  · intro op hop h
    cases op with
    | getLinkStatus => simp [Program.runOp]
    | getInfoLog => simp [Program.runOp]
    | deleteOp => exact absurd rfl hop
  · intro glo vs fs locs h
    unfold Program.construct
    cases hc : glo.createProgramResult with
    | none => simp
    | some program =>
        cases locs with
        | none => cases hl : glo.linkStatusAfterLink <;> simp
        | some l =>
            cases hl : glo.linkStatusAfterLink <;> simp [List.mem_append]

/-- C6 witness: running each operation on a concrete program wrapper. -/
theorem C6_delete_only_on_delete_witness :
    Program.runOp ⟨9, 1, 2⟩ Program.Op.deleteOp =
      (⟨9, 1, 2⟩, [GLCall.deleteProgram 9]) ∧
    GLCall.deleteProgram 9 ∉
      (Program.runOp ⟨9, 1, 2⟩ Program.Op.getLinkStatus).2 ∧
    GLCall.deleteProgram 9 ∉
      (Program.construct ⟨some 9, true, none⟩ 1 2 none).2 :=
  ⟨(C6_delete_only_on_delete ⟨9, 1, 2⟩).1,
   (C6_delete_only_on_delete ⟨9, 1, 2⟩).2.1 Program.Op.getLinkStatus
     (by simp) 9,
   (C6_delete_only_on_delete ⟨9, 1, 2⟩).2.2 ⟨some 9, true, none⟩ 1 2 none 9⟩

/-- C8: with no VAO bound, the `enabled` getter returns `false`; assigning
`enabled = true` still issues the native `enableVertexAttribArray` call,
leaves the per-VAO cache (and every other wrapper field) unchanged, and an
immediately following read of `enabled` returns `false`. -/
theorem C8_enabled_without_vao (a : Attribute) :
    a.getEnabled none = false ∧
    (a.setEnabled none true).2 =
      [GLCall.enableVertexAttribArray a.location] ∧
    (a.setEnabled none true).1 = a ∧
    (a.setEnabled none true).1.getEnabled none = false := by
  refine ⟨rfl, ?_, ?_, ?_⟩ <;>
    simp [Attribute.setEnabled, Attribute.getEnabled]

/-- C10: `AttributeState.use(program)` throws `Error("Attribute not
found.")` if and only if `program.attributes` has no entry for this state's
name; otherwise it assigns this state as the `value` of the found
attribute. -/
theorem C10_attribute_state_use (st : AttributeStateRec)
    (attrs : List (String × OldAttribute)) :
    (AttributeState.use st attrs = Except.error "Attribute not found." ↔
      AttributeState.mapGet attrs st.name = none) ∧
    (∀ attr : OldAttribute, AttributeState.mapGet attrs st.name = some attr →
      AttributeState.use st attrs =
          Except.ok (AttributeState.mapSetValue attrs st.name st) ∧
        AttributeState.mapGet (AttributeState.mapSetValue attrs st.name st)
            st.name = some { attr with value := some st }) := by
  constructor
  · unfold AttributeState.use
    cases h : AttributeState.mapGet attrs st.name <;> simp
  · intro attr hattr
    refine ⟨?_, mapGet_mapSetValue attrs st.name st attr hattr⟩
    unfold AttributeState.use
    rw [hattr]

/-- C10 witness: using a state on a program that has the attribute assigns
it, and on a program that lacks it throws. -/
theorem C10_attribute_state_use_witness :
    (AttributeState.use { name := "pos", buffer := 3 } [] =
        Except.error "Attribute not found.") ∧
    AttributeState.mapGet
        (AttributeState.mapSetValue [("pos", { value := none })] "pos"
          { name := "pos", buffer := 3 })
        "pos" =
      some { value := some { name := "pos", buffer := 3 } } :=
  ⟨(C10_attribute_state_use { name := "pos", buffer := 3 } []).1.mpr rfl,
   ((C10_attribute_state_use { name := "pos", buffer := 3 }
       [("pos", { value := none })]).2 { value := none } rfl).2⟩

/-- C9: the `activeTexture` wrapper property uses zero-based unit indices:
the setter's native call carries `value + TEXTURE0`, a cold read computes
`getParameter(ACTIVE_TEXTURE) - TEXTURE0`, and reading immediately after
writing any index returns the written index. -/
theorem C9_active_texture_zero_based (c : ContextState) (g : GLState)
    (v : Int) :
    (Context.getActiveTexture (Context.setActiveTexture c g v).1
        (Context.setActiveTexture c g v).2.1).1 = v ∧
    (c.activeTextureCache ≠ some v →
      (Context.setActiveTexture c g v).2.2 =
        [GLCall.nativeActiveTexture (v + TEXTURE0)]) ∧
    (c.activeTextureCache = none →
      (Context.getActiveTexture c g).1 = g.activeTextureEnum - TEXTURE0) := by
  by_cases h : c.activeTextureCache = some v
  · refine ⟨?_, fun hne => absurd h hne, ?_⟩
    · simp [Context.setActiveTexture, Context.getActiveTexture, h]
    · intro hn
      rw [hn] at h
      exact absurd h (by simp)
  · refine ⟨?_, fun _ => ?_, fun hn => ?_⟩
    · simp [Context.setActiveTexture, Context.getActiveTexture, h]
    · simp [Context.setActiveTexture, h]
    · simp [Context.getActiveTexture, hn]

/-- C9 witness: writing unit `2` over a cold cache issues
`activeTexture(33986)` and reading back yields `2`; a cold read of a driver
reporting raw enum `33985` yields unit `1`. -/
theorem C9_active_texture_zero_based_witness :
    (Context.getActiveTexture
        (Context.setActiveTexture {} ⟨ColorSpace.srgb, ColorSpace.srgb,
          33984, ⟨0, 0, 0, 0⟩⟩ 2).1
        (Context.setActiveTexture {} ⟨ColorSpace.srgb, ColorSpace.srgb,
          33984, ⟨0, 0, 0, 0⟩⟩ 2).2.1).1 = 2 ∧
    (Context.setActiveTexture {} ⟨ColorSpace.srgb, ColorSpace.srgb,
        33984, ⟨0, 0, 0, 0⟩⟩ 2).2.2 =
      [GLCall.nativeActiveTexture (2 + TEXTURE0)] ∧
    (Context.getActiveTexture {} ⟨ColorSpace.srgb, ColorSpace.srgb,
        33985, ⟨0, 0, 0, 0⟩⟩).1 = 33985 - TEXTURE0 :=
  ⟨(C9_active_texture_zero_based {} ⟨ColorSpace.srgb, ColorSpace.srgb,
      33984, ⟨0, 0, 0, 0⟩⟩ 2).1,
   (C9_active_texture_zero_based {} ⟨ColorSpace.srgb, ColorSpace.srgb,
      33984, ⟨0, 0, 0, 0⟩⟩ 2).2.1 (by simp),
   (C9_active_texture_zero_based {} ⟨ColorSpace.srgb, ColorSpace.srgb,
      33985, ⟨0, 0, 0, 0⟩⟩ 2).2.2 rfl⟩

/-- C5: for each lazily cached readable property
(`drawingBufferColorSpace`, `activeTexture`, `blendColor`), any sequence of
`n` successive reads issues at most one native query, and a read with a
populated cache returns the cached value without issuing any native
call. -/
theorem C5_reads_query_at_most_once (c : ContextState) (g : GLState)
    (n : Nat) :
    (readN (fun s => Context.getDrawingBufferColorSpace s g) c n).2.length
        ≤ 1 ∧
    (readN (fun s => Context.getUnpackColorSpace s g) c n).2.length ≤ 1 ∧
    (readN (fun s => Context.getActiveTexture s g) c n).2.length ≤ 1 ∧
    (readN (fun s => Context.getBlendColor s g) c n).2.length ≤ 1 ∧
    (∀ v : ColorSpace, c.drawingBufferColorSpaceCache = some v →
      Context.getDrawingBufferColorSpace c g = (v, c, [])) ∧
    (∀ v : ColorSpace, c.unpackColorSpaceCache = some v →
      Context.getUnpackColorSpace c g = (v, c, [])) ∧
    (∀ v : Int, c.activeTextureCache = some v →
      Context.getActiveTexture c g = (v, c, [])) ∧
    (∀ v : Color, c.blendColorCache = some v →
      Context.getBlendColor c g = (v, c, [])) := by
  refine ⟨?_, ?_, ?_, ?_, ?_, ?_, ?_, ?_⟩
  · refine readN_calls_le_one _
      (fun s => s.drawingBufferColorSpaceCache.isSome) ?_ ?_ c n
    · intro s hs
      obtain ⟨v, hv⟩ := Option.isSome_iff_exists.mp hs
      simp [Context.getDrawingBufferColorSpace, hv]
    · intro s hs
      rw [Option.not_isSome_iff_eq_none] at hs
      simp [Context.getDrawingBufferColorSpace, hs]
  · refine readN_calls_le_one _
      (fun s => s.unpackColorSpaceCache.isSome) ?_ ?_ c n
    · intro s hs
      obtain ⟨v, hv⟩ := Option.isSome_iff_exists.mp hs
      simp [Context.getUnpackColorSpace, hv]
    · intro s hs
      rw [Option.not_isSome_iff_eq_none] at hs
      simp [Context.getUnpackColorSpace, hs]
  · refine readN_calls_le_one _
      (fun s => s.activeTextureCache.isSome) ?_ ?_ c n
    · intro s hs
      obtain ⟨v, hv⟩ := Option.isSome_iff_exists.mp hs
      simp [Context.getActiveTexture, hv]
    · intro s hs
      rw [Option.not_isSome_iff_eq_none] at hs
      simp [Context.getActiveTexture, hs]
  · refine readN_calls_le_one _
      (fun s => s.blendColorCache.isSome) ?_ ?_ c n
    · intro s hs
      obtain ⟨v, hv⟩ := Option.isSome_iff_exists.mp hs
      simp [Context.getBlendColor, hv]
    · intro s hs
      rw [Option.not_isSome_iff_eq_none] at hs
      simp [Context.getBlendColor, hs]
  · intro v hv
    simp [Context.getDrawingBufferColorSpace, hv]
  · intro v hv
    simp [Context.getUnpackColorSpace, hv]
  · intro v hv
    simp [Context.getActiveTexture, hv]
  · intro v hv
    simp [Context.getBlendColor, hv]

/-- C5 witness: five successive reads from a cold cache issue at most one
query, and a warm read returns the cached value with no calls. -/
theorem C5_reads_query_at_most_once_witness :
    (readN
        (fun s => Context.getDrawingBufferColorSpace s
          ⟨ColorSpace.srgb, ColorSpace.srgb, 33984, ⟨0, 0, 0, 0⟩⟩)
        {} 5).2.length ≤ 1 ∧
    Context.getActiveTexture { activeTextureCache := some 3 }
        ⟨ColorSpace.srgb, ColorSpace.srgb, 33984, ⟨0, 0, 0, 0⟩⟩ =
      (3, { activeTextureCache := some 3 }, []) :=
  ⟨(C5_reads_query_at_most_once {}
      ⟨ColorSpace.srgb, ColorSpace.srgb, 33984, ⟨0, 0, 0, 0⟩⟩ 5).1,
   (C5_reads_query_at_most_once { activeTextureCache := some 3 }
      ⟨ColorSpace.srgb, ColorSpace.srgb, 33984, ⟨0, 0, 0, 0⟩⟩
      5).2.2.2.2.2.2.1 3 rfl⟩

/-- C1 counterexample: `Attribute.setValue` is a cached-state setter (it
maintains `valueCache`), yet when the requested value equals the cached
value it still invokes `setterInternal` (and rebinds the buffer) instead of
returning without the underlying call. -/
theorem C1_setValue_reissues_counterexample :
    (Attribute.setValue
        { location := 2, enabledVaosCache := [1],
          valueCache := some { buffer := 5 } }
        (some 1) (SetValueArg.val { buffer := 5 })).2 =
      [GLCall.bufferBind 5,
       GLCall.attributeSetterInternal { buffer := 5 }] := by
  decide

/-- C1 (amended): every cached-state setter that guards on its cache
(`Context.drawingBufferColorSpace`, `Context.unpackColorSpace`,
`Context.activeTexture`, `Context.blendColor`, `Attribute.enabled`) returns
without issuing the underlying native call, leaving wrapper and native
state untouched, when the requested value equals the cached value;
`Attribute.setValue` is the exception and always reissues its underlying
calls. -/
theorem C1_guarded_setters_skip (c : ContextState) (g : GLState)
    (cs cs' : ColorSpace) (v : Int) (col : Color) (a : Attribute)
    (bv : Option Int) (b : Bool) :
    (c.drawingBufferColorSpaceCache = some cs →
      Context.setDrawingBufferColorSpace c g cs = (c, g, [])) ∧
    (c.unpackColorSpaceCache = some cs' →
      Context.setUnpackColorSpace c g cs' = (c, g, [])) ∧
    (c.activeTextureCache = some v →
      Context.setActiveTexture c g v = (c, g, [])) ∧
    (∀ bc : Color, c.blendColorCache = some bc →
      bc.r = col.r → bc.g = col.g → bc.b = col.b → bc.a = col.a →
      Context.setBlendColor c g col = (c, g, [])) ∧
    (a.getEnabled bv = b → a.setEnabled bv b = (a, [])) := by
  refine ⟨?_, ?_, ?_, ?_, ?_⟩
  · intro h
    simp [Context.setDrawingBufferColorSpace, h]
  · intro h
    simp [Context.setUnpackColorSpace, h]
  · intro h
    simp [Context.setActiveTexture, h]
  · intro bc hbc hr hg hb ha
    simp [Context.setBlendColor, hbc, hr, hg, hb, ha]
  · intro h
    simp [Attribute.setEnabled, h]

/-- C1 witness: each guarded setter at a concrete cached state skips the
native call. -/
theorem C1_guarded_setters_skip_witness :
    Context.setDrawingBufferColorSpace
        { drawingBufferColorSpaceCache := some ColorSpace.srgb } g0
        ColorSpace.srgb =
      ({ drawingBufferColorSpaceCache := some ColorSpace.srgb }, g0, []) ∧
    Context.setUnpackColorSpace
        { unpackColorSpaceCache := some ColorSpace.displayP3 } g0
        ColorSpace.displayP3 =
      ({ unpackColorSpaceCache := some ColorSpace.displayP3 }, g0, []) ∧
    Context.setActiveTexture { activeTextureCache := some 1 } g0 1 =
      ({ activeTextureCache := some 1 }, g0, []) ∧
    Context.setBlendColor { blendColorCache := some ⟨1, 2, 3, 4⟩ } g0
        ⟨1, 2, 3, 4⟩ =
      ({ blendColorCache := some ⟨1, 2, 3, 4⟩ }, g0, []) ∧
    Attribute.setEnabled { location := 0, enabledVaosCache := [6] }
        (some 6) true =
      ({ location := 0, enabledVaosCache := [6] }, []) :=
  ⟨(C1_guarded_setters_skip
      { drawingBufferColorSpaceCache := some ColorSpace.srgb } g0
      ColorSpace.srgb ColorSpace.srgb 0 ⟨0, 0, 0, 0⟩
      { location := 0, enabledVaosCache := [] } none false).1 rfl,
   (C1_guarded_setters_skip
      { unpackColorSpaceCache := some ColorSpace.displayP3 } g0
      ColorSpace.srgb ColorSpace.displayP3 0 ⟨0, 0, 0, 0⟩
      { location := 0, enabledVaosCache := [] } none false).2.1 rfl,
   (C1_guarded_setters_skip { activeTextureCache := some 1 } g0
      ColorSpace.srgb ColorSpace.srgb 1 ⟨0, 0, 0, 0⟩
      { location := 0, enabledVaosCache := [] } none false).2.2.1 rfl,
   (C1_guarded_setters_skip { blendColorCache := some ⟨1, 2, 3, 4⟩ } g0
      ColorSpace.srgb ColorSpace.srgb 0 ⟨1, 2, 3, 4⟩
      { location := 0, enabledVaosCache := [] } none false).2.2.2.1
     ⟨1, 2, 3, 4⟩ rfl rfl rfl rfl rfl,
   (C1_guarded_setters_skip {} g0 ColorSpace.srgb ColorSpace.srgb 0
      ⟨0, 0, 0, 0⟩ { location := 0, enabledVaosCache := [6] } (some 6)
      true).2.2.2.2 rfl⟩

/-- C2 counterexample: assigning `enabled = true` on an attribute while no
VAO is bound issues the native call exactly once, yet the cache is not
updated to the requested value — a subsequent read of `enabled` still
returns `false`. -/
theorem C2_enabled_no_vao_counterexample :
    (Attribute.setEnabled { location := 0, enabledVaosCache := [] }
        none true).2 = [GLCall.enableVertexAttribArray 0] ∧
    (Attribute.setEnabled { location := 0, enabledVaosCache := [] }
        none true).1.getEnabled none = false := by
  decide

theorem nodup_not_mem_erase (a : Int) (l : List Int) (hnd : l.Nodup)
    (hm : a ∈ l) : a ∉ l.erase a := by
  induction l with
  | nil => simp
  | cons hd tl ih =>
      by_cases hha : hd = a
      · subst hha
        rw [List.erase_cons_head]
        exact (List.nodup_cons.mp hnd).1
      · have herase : (hd :: tl).erase a = hd :: tl.erase a := by
          simp [List.erase_cons, hha]
        rw [herase]
        intro hmem
        rcases List.mem_cons.mp hmem with h1 | h2
        · exact hha h1.symm
        · have hm' : a ∈ tl := by
            rcases List.mem_cons.mp hm with h3 | h4
            · exact absurd h3.symm hha
            · exact h4
          exact ih (List.nodup_cons.mp hnd).2 hm' h2

/-- C2 (amended): on a differing (or uncached) request, each cache-guarded
setter issues its native call exactly once and updates the cache to the
requested value — for `Attribute.enabled` this holds whenever a VAO is
bound — and `Attribute.setValue` always invokes `setterInternal` exactly
once and caches the normalised value; the sole exception is the `enabled`
setter with no VAO bound, which issues the call but leaves the per-VAO
cache unchanged. -/
theorem C2_distinct_value_updates (c : ContextState) (g : GLState)
    (cs cs' : ColorSpace) (v : Int) (col : Color) (a : Attribute)
    (vao : Int) (b : Bool) (bv : Option Int) (av : AttributeValue) :
    (c.drawingBufferColorSpaceCache ≠ some cs →
      Context.setDrawingBufferColorSpace c g cs =
        ({ c with drawingBufferColorSpaceCache := some cs },
         { g with drawingBufferColorSpace := cs },
         [GLCall.setNativeDrawingBufferColorSpace cs])) ∧
    (c.unpackColorSpaceCache ≠ some cs' →
      Context.setUnpackColorSpace c g cs' =
        ({ c with unpackColorSpaceCache := some cs' },
         { g with unpackColorSpace := cs' },
         [GLCall.setNativeUnpackColorSpace cs'])) ∧
    (c.activeTextureCache ≠ some v →
      Context.setActiveTexture c g v =
        ({ c with activeTextureCache := some v },
         { g with activeTextureEnum := v + TEXTURE0 },
         [GLCall.nativeActiveTexture (v + TEXTURE0)])) ∧
    ((∀ bc : Color, c.blendColorCache = some bc →
        ¬(bc.r = col.r ∧ bc.g = col.g ∧ bc.b = col.b ∧ bc.a = col.a)) →
      Context.setBlendColor c g col =
        ({ c with blendColorCache := some col },
         { g with blendColor := col },
         [GLCall.nativeBlendColor col.r col.g col.b col.a])) ∧
    (a.enabledVaosCache.Nodup → a.getEnabled (some vao) ≠ b →
      (a.setEnabled (some vao) b).2.length = 1 ∧
      (a.setEnabled (some vao) b).1.getEnabled (some vao) = b) ∧
    ((a.setValue bv (SetValueArg.val av)).2.count
        (GLCall.attributeSetterInternal av) = 1 ∧
      (a.setValue bv (SetValueArg.val av)).1.valueCache = some av) := by
  refine ⟨?_, ?_, ?_, ?_, ?_, ?_⟩
  · intro h
    simp [Context.setDrawingBufferColorSpace, h]
  · intro h
    simp [Context.setUnpackColorSpace, h]
  · intro h
    simp [Context.setActiveTexture, h]
  · intro h
    match hbc : c.blendColorCache with
    | none => simp [Context.setBlendColor, hbc]
    | some bc =>
        have hne := h bc hbc
        simp [Context.setBlendColor, hbc, hne]
  · intro hnd h
    cases b with
    | true =>
        have hmem : vao ∉ a.enabledVaosCache := by
          intro hm
          apply h
          simp [Attribute.getEnabled]
          exact hm
        simp [Attribute.setEnabled, Attribute.getEnabled, hmem]
    | false =>
        have hmem : vao ∈ a.enabledVaosCache := by
          by_contra hm
          apply h
          simp [Attribute.getEnabled, hm]
        simp [Attribute.setEnabled, Attribute.getEnabled, hmem]
        exact nodup_not_mem_erase vao a.enabledVaosCache hnd hmem
  · constructor
    · unfold Attribute.setValue
      simp only [List.count_append, List.count_cons, List.count_nil]
      have hz : (a.setEnabled bv true).2.count
          (GLCall.attributeSetterInternal av) = 0 := by
        unfold Attribute.setEnabled
        by_cases h : a.getEnabled bv = true
        · simp [h]
        · simp [h]
          cases bv with
          | none => simp
          | some vao' =>
              by_cases hm : vao' ∈ a.enabledVaosCache <;>
                simp [hm, List.count_cons]
      simp [hz]
    · unfold Attribute.setValue
      simp

/-- C2 witness: a cold `drawingBufferColorSpace` write issues one call and
caches; enabling an attribute with VAO `6` bound issues one call and a
subsequent read returns `true`; `setValue` invokes `setterInternal` once
and caches. -/
theorem C2_distinct_value_updates_witness :
    Context.setDrawingBufferColorSpace {} g0 ColorSpace.displayP3 =
      ({ drawingBufferColorSpaceCache := some ColorSpace.displayP3 },
       { g0 with drawingBufferColorSpace := ColorSpace.displayP3 },
       [GLCall.setNativeDrawingBufferColorSpace ColorSpace.displayP3]) ∧
    ((Attribute.setEnabled { location := 0, enabledVaosCache := [] }
        (some 6) true).2.length = 1 ∧
      (Attribute.setEnabled { location := 0, enabledVaosCache := [] }
        (some 6) true).1.getEnabled (some 6) = true) ∧
    ((Attribute.setValue { location := 0, enabledVaosCache := [] } none
        (SetValueArg.val { buffer := 5 })).2.count
        (GLCall.attributeSetterInternal { buffer := 5 }) = 1 ∧
      (Attribute.setValue { location := 0, enabledVaosCache := [] } none
        (SetValueArg.val { buffer := 5 })).1.valueCache =
        some { buffer := 5 }) :=
  ⟨(C2_distinct_value_updates {} g0 ColorSpace.displayP3 ColorSpace.srgb 0
      ⟨0, 0, 0, 0⟩ { location := 0, enabledVaosCache := [] } 6 true none
      { buffer := 5 }).1 (by decide),
   (C2_distinct_value_updates {} g0 ColorSpace.displayP3 ColorSpace.srgb 0
      ⟨0, 0, 0, 0⟩ { location := 0, enabledVaosCache := [] } 6 true none
      { buffer := 5 }).2.2.2.2.1 (by decide) (by decide),
   (C2_distinct_value_updates {} g0 ColorSpace.displayP3 ColorSpace.srgb 0
      ⟨0, 0, 0, 0⟩ { location := 0, enabledVaosCache := [] } 6 true none
      { buffer := 5 }).2.2.2.2.2⟩

/-- C7: every surfaced error is detected synchronously at the single
underlying native call and thrown immediately: an unsupported context is
raised right after the one `getContext` call, an unsupported program or
shader creation right after the one `createProgram`/`createShader` call, a
link failure right after the single `linkProgram` (with only the
diagnostic queries in between), and a compile failure right after the
single `compileShader`; the failing call appears exactly once in the trace
(no retry) and the result is the error itself (no recovery). -/
theorem C7_errors_synchronous (glo : ProgramGL) (vs fs : Int)
    (locs : Option (List (String × Int))) (p : Int) (sgl : ShaderGL)
    (sh : Int) :
    (Context.fromCanvas none =
      (Except.error (UmbraError.unsupportedOperation
        (some "The environment does not support WebGL2.")),
       [GLCall.getContextWebgl2])) ∧
    (glo.createProgramResult = none →
      Program.construct glo vs fs locs =
        (Except.error (UmbraError.unsupportedOperation none),
         [GLCall.createProgram])) ∧
    (glo.createProgramResult = some p → glo.linkStatusAfterLink = false →
      (Program.construct glo vs fs locs).1 =
          Except.error (UmbraError.programLink glo.programInfoLog) ∧
        ∃ k : List GLCall, GLCall.linkProgram ∉ k ∧
          (Program.construct glo vs fs locs).2 =
            k ++ [GLCall.linkProgram, GLCall.getProgramParameterLinkStatus,
              GLCall.getProgramInfoLog]) ∧
    (sgl.createShaderResult = some sh →
      sgl.compileStatusAfterCompile = false →
      Shader.construct sgl =
        (Except.error (UmbraError.shaderCompile sgl.shaderInfoLog),
         [GLCall.createShader, GLCall.shaderSourceCall,
          GLCall.compileShader, GLCall.getShaderParameterCompileStatus,
          GLCall.getShaderInfoLog])) ∧
    (sgl.createShaderResult = none →
      Shader.construct sgl =
        (Except.error (UmbraError.unsupportedOperation none),
         [GLCall.createShader])) := by
  refine ⟨rfl, ?_, ?_, ?_, ?_⟩
  · intro h
    unfold Program.construct
    rw [h]
  · intro hp hl
    unfold Program.construct
    rw [hp]
    cases locs with
    | none =>
        refine ⟨by simp [hl], [GLCall.createProgram,
          GLCall.attachShader vs, GLCall.attachShader fs], by simp, ?_⟩
        simp [hl]
    | some l =>
        refine ⟨by simp [hl], [GLCall.createProgram,
          GLCall.attachShader vs, GLCall.attachShader fs] ++
          (l.map fun q => GLCall.bindAttribLocation q.2 q.1), ?_, ?_⟩
        · intro hmem
          simp at hmem
        · simp [hl]
  · intro hs hc
    unfold Shader.construct
    rw [hs]
    simp [hc]
  · intro hs
    unfold Shader.construct
    rw [hs]

/-- C7 witness: concrete failing oracles for each error kind. -/
theorem C7_errors_synchronous_witness :
    Program.construct ⟨none, false, none⟩ 1 2 none =
      (Except.error (UmbraError.unsupportedOperation none),
       [GLCall.createProgram]) ∧
    ((Program.construct ⟨some 4, false, some "x"⟩ 1 2 none).1 =
        Except.error (UmbraError.programLink (some "x")) ∧
      ∃ k : List GLCall, GLCall.linkProgram ∉ k ∧
        (Program.construct ⟨some 4, false, some "x"⟩ 1 2 none).2 =
          k ++ [GLCall.linkProgram, GLCall.getProgramParameterLinkStatus,
            GLCall.getProgramInfoLog]) ∧
    Shader.construct ⟨some 3, false, some "e"⟩ =
      (Except.error (UmbraError.shaderCompile (some "e")),
       [GLCall.createShader, GLCall.shaderSourceCall,
        GLCall.compileShader, GLCall.getShaderParameterCompileStatus,
        GLCall.getShaderInfoLog]) ∧
    Shader.construct ⟨none, true, none⟩ =
      (Except.error (UmbraError.unsupportedOperation none),
       [GLCall.createShader]) :=
  ⟨(C7_errors_synchronous ⟨none, false, none⟩ 1 2 none 0
      ⟨some 3, false, some "e"⟩ 3).2.1 rfl,
   (C7_errors_synchronous ⟨some 4, false, some "x"⟩ 1 2 none 4
      ⟨some 3, false, some "e"⟩ 3).2.2.1 rfl rfl,
   (C7_errors_synchronous ⟨some 4, false, some "x"⟩ 1 2 none 4
      ⟨some 3, false, some "e"⟩ 3).2.2.2.1 rfl rfl,
   (C7_errors_synchronous ⟨some 4, true, none⟩ 1 2 none 4
      ⟨none, true, none⟩ 0).2.2.2.2 rfl⟩

end Umbra
